import Mathlib

/-!
Verification development for the map-generation worker
(src/server/scripts/generate_maps.py).

Images are modelled as intensity grids with explicit dimensions and a
pixel function; uint8 values are Nat, float intermediates are ℚ (exact
rationals standing for the script's float arithmetic), and the idealized
per-pixel normal analysis uses ℝ.  OpenCV / MediaPipe / NumPy primitives
that the script merely calls (Gaussian blur, Canny, Sobel, GrabCut,
landmark detection, interpolation) are modelled as environment functions
carrying only their documented contracts; every piece of in-repository
logic (threshold derivation, normalisation formulas, morphology
composition, checkpoint resolution, fallback control flow, resizing,
orchestration) is translated directly from the source.
-/

/-- Single-channel image: height, width and a pixel intensity function.
Pixel values are uint8 intensities modelled as Nat; indices outside
the h × w range are irrelevant to every property below. -/
structure Grid where
  h : Nat
  w : Nat
  pix : Nat → Nat → Nat

/-- Rational-valued grid, modelling float32/float64 intermediate arrays. -/
structure QGrid where
  h : Nat
  w : Nat
  pix : Nat → Nat → ℚ

/-- Three-channel image: per-pixel BGR triples (OpenCV channel order). -/
structure Grid3 where
  h : Nat
  w : Nat
  pix : Nat → Nat → Nat × Nat × Nat

/-- Every in-range pixel of the grid is either 0 or 255. -/
def BinaryGrid (g : Grid) : Prop :=
  ∀ i, i < g.h → ∀ j, j < g.w → g.pix i j = 0 ∨ g.pix i j = 255

/-- All-zero grid, modelling np.zeros of an image-shaped uint8 array. -/
def zerosGrid (h w : Nat) : Grid := ⟨h, w, fun _ _ => 0⟩

/-- Row-major list of the in-range pixel values of a grid. -/
def gridValues (g : Grid) : List Nat :=
  (List.range g.h).foldr (fun i acc => (List.range g.w).map (g.pix i) ++ acc) []

/-- Number of distinct intensity values occurring in the grid. -/
def distinctCount (g : Grid) : Nat := (gridValues g).dedup.length

/-- Python float64 arithmetic of the resize step, as a black-box
operation with the standard floating-point model as its contract.
scaled a m M is the value the interpreter computes for
a * (m / max(h, w)) with M = max(h, w) (generate_maps.py lines 343-344):
the int operands convert to float64 exactly (they are far below 2^53),
and the division and the multiplication each round to nearest with unit
roundoff 2^-53, so the computed value equals the exact rational
a * (m / M) up to relative error (1 + 2^-53)^2 - 1 < 2^-51.  The result
can land on either side of the exact value: int() of it may be one
below the exact floor (e.g. 1122 * (1024/1122) evaluates to
1023.9999999999999). -/
structure FloatArith where
  scaled : Nat → Nat → Nat → ℚ
  scaled_rel : ∀ a m M,
    |scaled a m M - (a : ℚ) * ((m : ℚ) / (M : ℚ))| ≤
      ((a : ℚ) * ((m : ℚ) / (M : ℚ))) / 2 ^ 51

/-- Dimension computation of the initial resize (generate_maps.py, main,
lines 341-346): when the longer side exceeds the maximum dimension the
scale is maxDim / max h w (float64) and each side is multiplied by it in
float64 and truncated with int(); otherwise the dimensions are
unchanged.  The float products are supplied by the FloatArith operation
under its standard-model contract; they are nonnegative, so int()
truncation is the floor. -/
def resizeDims (fl : FloatArith) (h w maxDim : Nat) : Nat × Nat :=
  if maxDim < max h w then
    ((fl.scaled h maxDim (max h w)).floor.toNat,
     (fl.scaled w maxDim (max h w)).floor.toNat)
  else (h, w)

/-- In-bounds indices of the radius-r neighbourhood of index i on an axis
of length n (the kernel anchor is the centre; the constant border padding
used by OpenCV dilate/erode is neutral for max/min, so only in-bounds
neighbours matter). -/
def nbhd (r i n : Nat) : List Nat :=
  (List.range (2 * r + 1)).filterMap (fun d =>
    if r ≤ i + d ∧ i + d - r < n then some (i + d - r) else none)

/-- Pixel values of the (2r+1) × (2r+1) neighbourhood of (i, j) that lie
inside the grid. -/
def nbhdValues (g : Grid) (r i j : Nat) : List Nat :=
  (nbhd r i g.h).foldr (fun a acc => (nbhd r j g.w).map (g.pix a) ++ acc) []

/-- Morphological dilation with an all-ones (2r+1) × (2r+1) kernel:
per-pixel maximum over the in-bounds neighbourhood (cv2.dilate; the
default border value for dilation is -inf, neutral for max, modelled by
the fold seed 0). -/
def dilate (r : Nat) (g : Grid) : Grid :=
  ⟨g.h, g.w, fun i j => (nbhdValues g r i j).foldr max 0⟩

/-- Morphological erosion with an all-ones (2r+1) × (2r+1) kernel:
per-pixel minimum over the in-bounds neighbourhood (cv2.erode; the
default border value for erosion is +inf, neutral for min, modelled by
the fold seed 255). -/
def erode (r : Nat) (g : Grid) : Grid :=
  ⟨g.h, g.w, fun i j => (nbhdValues g r i j).foldr min 255⟩

/-- Rasterization of one filled convex hull into an accumulator mask
(cv2.fillConvexPoly with colour 255): pixels inside the hull region
become 255, all others keep their previous value.  The hull region of a
detected subject is provided by the environment as a pixel predicate. -/
def fillConvexPoly (m : Grid) (region : Nat → Nat → Bool) : Grid :=
  ⟨m.h, m.w, fun i j => if region i j then 255 else m.pix i j⟩

/-- External OpenCV primitives used by the script, as black-box
functions.  canny carries its documented output contract: the edge map
is strictly 0/255-valued.  resizePix is the INTER_AREA interpolation
producing the pixel content at the requested output size. -/
structure CVEnv where
  cvtGray : Grid → Grid
  gaussianBlur3 : Grid → Grid
  gaussianBlur31 : QGrid → QGrid
  laplacian : Grid → QGrid
  canny : Grid → Nat → Nat → Grid
  canny_binary : ∀ g lo hi, BinaryGrid (canny g lo hi)
  resizePix : Grid → Nat → Nat → Nat → Nat → Nat
  sobelX : QGrid → QGrid
  sobelY : QGrid → QGrid
  vecNorm : ℚ → ℚ → ℚ → ℚ

/-- Optional learned-depth backend: the module-level DEPTH_AVAILABLE
capability flag, existence of the three candidate checkpoint paths in
priority order (script checkpoints dir, script dir, home cache), whether
torch.load of a found checkpoint succeeds, and the model inference call
(none models an exception escaping infer_image). -/
structure DepthBackend where
  depth_available : Bool
  checkpoint_exists : List Bool
  load_ok : Bool
  infer : Grid → Option QGrid

/-- Optional MediaPipe landmark backend: the MEDIAPIPE_AVAILABLE flag and
the per-image detection results, each detected subject instance given as
the rasterized convex-hull region of its landmark points. -/
structure DetectEnv where
  mediapipe_available : Bool
  faces : Grid → List (Nat → Nat → Bool)
  hands : Grid → List (Nat → Nat → Bool)

/-- External GrabCut solver: from the image and the initialization
rectangle (x, y, width, height) to the per-pixel label grid
(GC_BGD = 0, GC_FGD = 1, GC_PR_BGD = 2, GC_PR_FGD = 3). -/
structure SegEnv where
  grabCut : Grid → Nat × Nat × Nat × Nat → Grid

/-- Complete runtime environment of the worker process. -/
structure Env where
  cv : CVEnv
  depth : DepthBackend
  det : DetectEnv
  seg : SegEnv
  pyFloat : FloatArith

/-- Provenance of the learned model's weights: a loaded checkpoint
(by candidate index) or the uninitialized weights the script proceeds
with after the "No checkpoint found" warning. -/
inductive Weights where
  | loaded (idx : Nat)
  | uninitialized
deriving DecidableEq

/-- First existing checkpoint path from the prioritized candidate list
(generate_maps.py lines 83-94). -/
def resolveCheckpoint (d : DepthBackend) : Option Nat :=
  d.checkpoint_exists.findIdx? (fun b => b)

/-- Row-major values of a rational grid. -/
def qgridValues (g : QGrid) : List ℚ :=
  (List.range g.h).foldr (fun i acc => (List.range g.w).map (g.pix i) ++ acc) []

/-- Minimum value of a (nonempty) rational grid, as numpy .min(). -/
def qgridMin (g : QGrid) : ℚ := (qgridValues g).foldr min (g.pix 0 0)

/-- Maximum value of a (nonempty) rational grid, as numpy .max(). -/
def qgridMax (g : QGrid) : ℚ := (qgridValues g).foldr max (g.pix 0 0)

/-- Truncation toward zero, as C / numpy float-to-int conversion. -/
def truncToInt (q : ℚ) : Int := if 0 ≤ q then q.floor else q.ceil

/-- Conversion astype(uint8): truncate toward zero, wrap modulo 256. -/
def toUint8 (q : ℚ) : Nat := (truncToInt q % 256).toNat

/-- Min-max rescaling to the display range with the epsilon-guarded
denominator, then uint8 conversion (generate_maps.py line 110 for the
ML depth path and line 127 for the heuristic path; the formula is
identical). -/
def normalizeDepth (g : QGrid) : Grid :=
  ⟨g.h, g.w, fun i j =>
    toUint8 ((g.pix i j - qgridMin g) / (qgridMax g - qgridMin g + 1 / 100000000) * 255)⟩

/-- Learned-model depth path (compute_depth_map_ml, lines 64-111):
raises when the capability flag is unset; resolves the first existing
checkpoint and loads it (a load failure raises), or — when no candidate
exists — warns and proceeds with uninitialized weights; then runs one
inference pass and min-max normalizes the output. -/
def compute_depth_map_ml (env : Env) (img : Grid) :
    Except String (Grid × Weights) :=
  if env.depth.depth_available = false then
    Except.error "Depth Anything V2 not installed. Run setup_maps_env.sh first."
  else
    match resolveCheckpoint env.depth with
    | some idx =>
      if env.depth.load_ok = false then Except.error "torch.load failed"
      else
        match env.depth.infer img with
        | some d => Except.ok (normalizeDepth d, Weights.loaded idx)
        | none => Except.error "inference raised"
    | none =>
      match env.depth.infer img with
      | some d => Except.ok (normalizeDepth d, Weights.uninitialized)
      | none => Except.error "inference raised"

/-- Heuristic fallback depth (compute_depth_map_simple, lines 114-128):
Laplacian magnitude, 31 × 31 Gaussian smoothing, min-max rescale. -/
def compute_depth_map_simple (env : Env) (img : Grid) : Grid :=
  let gray := env.cv.cvtGray img
  let lap := env.cv.laplacian gray
  let lv := env.cv.gaussianBlur31 ⟨lap.h, lap.w, fun i j => |lap.pix i j|⟩
  normalizeDepth lv

/-- Depth estimation dispatch (compute_depth_map, lines 131-141): when
the capability flag is set, try the learned path and catch any exception
by falling back to the heuristic; otherwise go to the heuristic
directly.  Total — the estimator never raises. -/
def compute_depth_map (env : Env) (img : Grid) : Grid × String :=
  if env.depth.depth_available = true then
    match compute_depth_map_ml env img with
    | Except.ok (d, _) => (d, "depth-anything-v2-vits")
    | Except.error _ => (compute_depth_map_simple env img, "simple-laplacian")
  else (compute_depth_map_simple env img, "simple-laplacian")

/-- Discriminator: did the learned path return without raising. -/
def mlOk (r : Except String (Grid × Weights)) : Bool :=
  match r with
  | Except.ok _ => true
  | Except.error _ => false

/-- Weight provenance of a successful learned-path run. -/
def mlWeights (r : Except String (Grid × Weights)) : Option Weights :=
  match r with
  | Except.ok p => some p.2
  | Except.error _ => none

/-- Fixed Z component of the unnormalized per-pixel normal vector
(z_scale = 0.5, generate_maps.py line 157). -/
def z_scale : ℚ := 1 / 2

/-- Normal map computation (compute_normals_from_depth, lines 148-167):
depth normalized into [0,1], Sobel gradients, per-pixel vector
(-dx, -dy, z_scale) normalized with the epsilon guard, each component
remapped from [-1,1] to [0,255], and RGB swapped to BGR for output.
vecNorm is the numpy Euclidean norm of the per-pixel 3-vector. -/
def compute_normals_from_depth (env : Env) (depth : Grid) : Grid3 :=
  let df : QGrid := ⟨depth.h, depth.w, fun i j => (depth.pix i j : ℚ) / 255⟩
  let dzdx := env.cv.sobelX df
  let dzdy := env.cv.sobelY df
  ⟨depth.h, depth.w, fun i j =>
    let dx := dzdx.pix i j
    let dy := dzdy.pix i j
    let n := env.cv.vecNorm (-dx) (-dy) z_scale
    let nx := -dx / (n + 1 / 100000000)
    let ny := -dy / (n + 1 / 100000000)
    let nz := z_scale / (n + 1 / 100000000)
    (toUint8 ((nz + 1) * (1 / 2) * 255),
     toUint8 ((ny + 1) * (1 / 2) * 255),
     toUint8 ((nx + 1) * (1 / 2) * 255))⟩

/-- Idealized per-pixel normalization of lines 157-160 over ℝ, with the
exact Euclidean norm of the vector (-dx, -dy, z_scale) in place of the
floating-point numpy norm: the vector divided by (norm + 1e-8). -/
noncomputable def normalAt (dx dy : ℝ) : ℝ × ℝ × ℝ :=
  let n := Real.sqrt (dx ^ 2 + dy ^ 2 + ((z_scale : ℝ)) ^ 2)
  (-dx / (n + 1 / 100000000), -dy / (n + 1 / 100000000),
   (z_scale : ℝ) / (n + 1 / 100000000))

/-- Insertion into a sorted list (helper for the median). -/
def insertSorted (x : Nat) : List Nat → List Nat
  | [] => [x]
  | y :: ys => if x ≤ y then x :: y :: ys else y :: insertSorted x ys

/-- Insertion sort of the pixel values (helper for the median). -/
def sortNat (l : List Nat) : List Nat := l.foldr insertSorted []

/-- Median as np.median: the middle element of the sorted values, or the
mean of the two middle elements for even length (0 for an empty list). -/
def medianQ (l : List Nat) : ℚ :=
  let s := sortNat l
  let n := s.length
  if n = 0 then 0
  else if n % 2 = 1 then ((s.getD (n / 2) 0 : Nat) : ℚ)
  else (((s.getD (n / 2 - 1) 0 : Nat) : ℚ) + ((s.getD (n / 2) 0 : Nat) : ℚ)) / 2

/-- Automatic Canny thresholds (compute_edges, lines 181-185): the median
of the blurred grayscale image scaled by (1 - σ) and (1 + σ) with
σ = 0.33, clamped to [0, 255] and truncated with int(). -/
def autoThresholds (env : Env) (img : Grid) : Nat × Nat :=
  let blurred := env.cv.gaussianBlur3 (env.cv.cvtGray img)
  let med := medianQ (gridValues blurred)
  ((max 0 ((1 - 33 / 100 : ℚ) * med)).floor.toNat,
   (min 255 ((1 + 33 / 100 : ℚ) * med)).floor.toNat)

/-- Edge map (compute_edges, lines 174-188): grayscale conversion, 3 × 3
Gaussian blur, median-derived double thresholds, Canny. -/
def compute_edges (env : Env) (img : Grid) : Grid :=
  let blurred := env.cv.gaussianBlur3 (env.cv.cvtGray img)
  env.cv.canny blurred (autoThresholds env img).1 (autoThresholds env img).2

/-- Face mask (compute_face_mask, lines 195-232): raises when MediaPipe
is absent; otherwise rasterizes the convex hull of each detected face's
landmarks into a zero-initialized mask and dilates twice with a 5 × 5
kernel (radius 2).  Zero detections leave the mask all-background. -/
def compute_face_mask (env : Env) (img : Grid) : Except String Grid :=
  if env.det.mediapipe_available = false then
    Except.error "MediaPipe not installed. Run: pip install mediapipe"
  else
    Except.ok (dilate 2 (dilate 2
      ((env.det.faces img).foldl fillConvexPoly (zerosGrid img.h img.w))))

/-- Hands mask (compute_hands_mask, lines 239-274): same shape as the
face mask but with the hands detector and two dilations with a 15 × 15
kernel (radius 7). -/
def compute_hands_mask (env : Env) (img : Grid) : Except String Grid :=
  if env.det.mediapipe_available = false then
    Except.error "MediaPipe not installed. Run: pip install mediapipe"
  else
    Except.ok (dilate 7 (dilate 7
      ((env.det.hands img).foldl fillConvexPoly (zerosGrid img.h img.w))))

/-- Segmentation mask (compute_segmentation_mask, lines 281-313):
all-background for degenerate sizes; otherwise GrabCut from a centred
rectangle inset by max(10, 5%) per axis, labels 1/3 binarized to 255,
then one 3 × 3 morphological opening (erode, dilate) and a closing with
two iterations (dilate twice, erode twice). -/
def compute_segmentation_mask (env : Env) (img : Grid) : Grid :=
  if img.h ≤ 2 ∨ img.w ≤ 2 then zerosGrid img.h img.w
  else
    let mx := max 10 (img.w * 5 / 100)
    let my := max 10 (img.h * 5 / 100)
    let rect := (mx, my, max 1 (img.w - 2 * mx), max 1 (img.h - 2 * my))
    let labels := env.seg.grabCut img rect
    let binarized : Grid :=
      ⟨img.h, img.w, fun i j =>
        if labels.pix i j = 1 ∨ labels.pix i j = 3 then 255 else 0⟩
    erode 1 (erode 1 (dilate 1 (dilate 1 (dilate 1 (erode 1 binarized)))))

/-- Metadata record appended to results['maps'] for one generated map
(the generation timestamp, an external clock read, is not modelled). -/
structure MapRecord where
  kind : String
  filename : String
  width : Nat
  height : Nat
  modelUsed : String
deriving DecidableEq

/-- Observable outcome of one worker invocation: process exit code, the
error payload (decode failure only), the ordered list of map records,
the working image's final dimensions, the saved input artifact name, and
the retained depth-map cache of the run. -/
structure RunOutcome where
  exitCode : Nat
  errorMsg : Option String
  maps : List MapRecord
  sourceWidth : Nat
  sourceHeight : Nat
  inputFilename : Option String
  depthCache : Option Grid

/-- Initial downscale (main, lines 340-346): applied only when the longer
side exceeds maxDim; output dimensions from resizeDims, pixel content
from the INTER_AREA interpolation. -/
def resizeImage (env : Env) (img : Grid) (maxDim : Nat) : Grid :=
  if maxDim < max img.h img.w then
    ⟨(resizeDims env.pyFloat img.h img.w maxDim).1,
     (resizeDims env.pyFloat img.h img.w maxDim).2,
     env.cv.resizePix img (resizeDims env.pyFloat img.h img.w maxDim).1
       (resizeDims env.pyFloat img.h img.w maxDim).2⟩
  else img

/-- Body of the per-kind dispatch (main, lines 362-441): the elif chain
on the kind token inside the per-kind try/except.  Returns the updated
depth cache and the record to append (none both for a failed kind —
its exception is caught and logged — and for an unknown token, which
falls through every branch). -/
def stepKind (env : Env) (img : Grid) (cache : Option Grid) (k : String) :
    Option Grid × Option MapRecord :=
  if k = "depth" then
    let r := compute_depth_map env img
    (some r.1, some ⟨"depth", "depth.png", img.w, img.h, r.2⟩)
  else if k = "normals" then
    let d := match cache with
      | some d => d
      | none => (compute_depth_map env img).1
    let _normals := compute_normals_from_depth env d
    (some d, some ⟨"normals", "normals.png", img.w, img.h, "sobel-from-depth"⟩)
  else if k = "edges" then
    let _edges := compute_edges env img
    (cache, some ⟨"edges", "edges.png", img.w, img.h, "canny-auto"⟩)
  else if k = "segmentation" then
    let _seg := compute_segmentation_mask env img
    (cache, some ⟨"segmentation", "segmentation.png", img.w, img.h,
      "opencv-grabcut"⟩)
  else if k = "faceMask" then
    match compute_face_mask env img with
    | Except.ok _ =>
      (cache, some ⟨"faceMask", "faceMask.png", img.w, img.h,
        "mediapipe-face-mesh"⟩)
    | Except.error _ => (cache, none)
  else if k = "handsMask" then
    match compute_hands_mask env img with
    | Except.ok _ =>
      (cache, some ⟨"handsMask", "handsMask.png", img.w, img.h,
        "mediapipe-hands"⟩)
    | Except.error _ => (cache, none)
  else (cache, none)

/-- The requested-kinds loop of main: processes tokens in order,
threading the depth cache, collecting records of completed kinds. -/
def runKinds (env : Env) (img : Grid) :
    List String → Option Grid → List MapRecord × Option Grid
  | [], cache => ([], cache)
  | k :: rest, cache =>
    let s := stepKind env img cache k
    let r := runKinds env img rest s.1
    (match s.2 with
     | some r0 => r0 :: r.1
     | none => r.1, r.2)

/-- Characterization of which kind tokens append a record in a given
environment: the four always-available generators succeed, the two
landmark masks succeed exactly when MediaPipe is available, and every
other token is unknown. -/
def kindSucceeds (env : Env) (k : String) : Bool :=
  if k = "depth" then true
  else if k = "normals" then true
  else if k = "edges" then true
  else if k = "segmentation" then true
  else if k = "faceMask" then env.det.mediapipe_available
  else if k = "handsMask" then env.det.mediapipe_available
  else false

/-- Whole invocation (main, lines 320-443): decode failure yields the
error payload and exit status 1; otherwise resize, run every requested
kind under the per-kind isolation boundary, and exit 0 with the
assembled result set. -/
def mainRun (env : Env) (decoded : Option Grid) (kinds : List String)
    (maxDim : Nat) : RunOutcome :=
  match decoded with
  | none => ⟨1, some "Could not load image", [], 0, 0, none, none⟩
  | some img0 =>
    let img := resizeImage env img0 maxDim
    let rk := runKinds env img kinds none
    ⟨0, none, rk.1, img.w, img.h, some "input.png", rk.2⟩

/-- Concrete OpenCV environment for witnesses: identity blurs, zero
derivative stencils, an all-background Canny output (its binary contract
holds trivially). -/
def cv0 : CVEnv :=
  { cvtGray := fun g => g
    gaussianBlur3 := fun g => g
    gaussianBlur31 := fun g => g
    laplacian := fun g => ⟨g.h, g.w, fun _ _ => 0⟩
    canny := fun g _ _ => zerosGrid g.h g.w
    canny_binary := fun _ _ _ _ _ _ _ => Or.inl rfl
    resizePix := fun g _ _ => g.pix
    sobelX := fun q => ⟨q.h, q.w, fun _ _ => 0⟩
    sobelY := fun q => ⟨q.h, q.w, fun _ _ => 0⟩
    vecNorm := fun _ _ _ => 1 }

/-- Exact-rational instance of the float contract (zero rounding error
trivially satisfies the standard-model bound). -/
def exactFloat : FloatArith :=
  { scaled := fun a m M => (a : ℚ) * ((m : ℚ) / (M : ℚ))
    scaled_rel := fun a m M => by
      simp only [sub_self, abs_zero]
      positivity }

/-- Float64 values the interpreter actually computes at the concrete
counterexample inputs (exact binary64 results of a * (m / M), verified
against IEEE 754 round-to-nearest), falling back to exact arithmetic
elsewhere; each value satisfies the standard-model contract. -/
def flPy : FloatArith :=
  { scaled := fun a m M =>
      if a = 19 ∧ m = 1024 ∧ M = 10240 then 8556839292003943 / 2 ^ 52
      else if a = 1122 ∧ m = 1024 ∧ M = 1122 then 9007199254740991 / 2 ^ 43
      else if a = 800 ∧ m = 1024 ∧ M = 1122 then 6422245457925841 / 2 ^ 43
      else (a : ℚ) * ((m : ℚ) / (M : ℚ))
    scaled_rel := by
      intro a m M
      simp only []
      by_cases h1 : a = 19 ∧ m = 1024 ∧ M = 10240
      · obtain ⟨rfl, rfl, rfl⟩ := h1
        norm_num [abs_le]
      · rw [if_neg h1]
        by_cases h2 : a = 1122 ∧ m = 1024 ∧ M = 1122
        · obtain ⟨rfl, rfl, rfl⟩ := h2
          norm_num [abs_le]
        · rw [if_neg h2]
          by_cases h3 : a = 800 ∧ m = 1024 ∧ M = 1122
          · obtain ⟨rfl, rfl, rfl⟩ := h3
            norm_num [abs_le]
          · rw [if_neg h3]
            simp only [sub_self, abs_zero]
            positivity }

/-- Concrete environment: depth capability set with no resolvable
checkpoint, MediaPipe present with zero detections. -/
def env0 : Env :=
  { cv := cv0
    depth :=
      { depth_available := true
        checkpoint_exists := [false, false, false]
        load_ok := true
        infer := fun g => some ⟨g.h, g.w, fun _ _ => 0⟩ }
    det := { mediapipe_available := true, faces := fun _ => [], hands := fun _ => [] }
    seg := { grabCut := fun g _ => zerosGrid g.h g.w }
    pyFloat := exactFloat }

/-- Concrete environment with the MediaPipe capability absent. -/
def envNoMp : Env :=
  { env0 with
    det := { mediapipe_available := false, faces := fun _ => [], hands := fun _ => [] } }

/-- Small concrete 4 × 4 input image. -/
def img44 : Grid := ⟨4, 4, fun _ _ => 0⟩

/-- The face mask produced by env0 on img44 (zero detections). -/
def faceMask0 : Grid :=
  dilate 2 (dilate 2 ((env0.det.faces img44).foldl fillConvexPoly (zerosGrid 4 4)))

/-- Number of occurrences of a string in a list. -/
def countStr (k : String) (l : List String) : Nat :=
  (l.filter (fun x => x = k)).length

lemma ratFloor_eq_intFloor (q : ℚ) : q.floor = Int.floor q := rfl

/-- Core aspect-ratio estimate over ℚ: if S is within 3/2 of the exact
scaled shorter side t ≤ M and L is within 1 of M (from below), with
M ≥ 300, then S / L is within 1/100 of t / M. -/
lemma ratio_core (t M S L : ℚ) (hM : 300 ≤ M) (ht0 : 0 ≤ t) (htM : t ≤ M)
    (hS : |S - t| ≤ 3 / 2) (hL : M - 1 ≤ L) (hLM : L ≤ M) :
    |S / L - t / M| < 1 / 100 := by
  have hL0 : (0 : ℚ) < L := by linarith
  have hM0 : (0 : ℚ) < M := by linarith
  rw [div_sub_div _ _ hL0.ne' hM0.ne', abs_div, abs_of_pos (mul_pos hL0 hM0),
    div_lt_iff (mul_pos hL0 hM0)]
  have hsplit : S * M - L * t = (S - t) * M + t * (M - L) := by ring
  have key : |S * M - L * t| ≤ 3 / 2 * M + t := by
    rw [hsplit]
    calc |(S - t) * M + t * (M - L)|
        ≤ |(S - t) * M| + |t * (M - L)| := abs_add _ _
      _ = |S - t| * M + t * (M - L) := by
          rw [abs_mul, abs_mul, abs_of_pos hM0, abs_of_nonneg ht0,
            abs_of_nonneg (by linarith : (0 : ℚ) ≤ M - L)]
      _ ≤ 3 / 2 * M + t * 1 := by
          have h1 : |S - t| * M ≤ 3 / 2 * M :=
            mul_le_mul_of_nonneg_right hS hM0.le
          have h2 : t * (M - L) ≤ t * 1 :=
            mul_le_mul_of_nonneg_left (by linarith) ht0
          linarith
      _ = 3 / 2 * M + t := by ring
  have hMM : 300 * M ≤ M * M := mul_le_mul_of_nonneg_right hM hM0.le
  have hLM2 : (M - 1) * M ≤ L * M := mul_le_mul_of_nonneg_right hL hM0.le
  calc |S * M - L * t| ≤ 3 / 2 * M + t := key
    _ ≤ 5 / 2 * M := by linarith
    _ < 1 / 100 * (L * M) := by nlinarith [hMM, hLM2, hM0]

/-- One orientation of the resize analysis: for short side a ≤ b (long
side) and maxDimension M ≤ 2^50, the truncated float64-scaled sides S
(short) and L (long) satisfy: both are at most M, L is at least M - 1,
and for M ≥ 300 the min-over-max ratio is within 1/100 of a / b. -/
lemma resize_branch_aux (fl : FloatArith) (a b M : Nat) (hb : 0 < b)
    (hab : a ≤ b) (hmd : M ≤ 2 ^ 50) :
    (M - 1 ≤ max (fl.scaled a M b).floor.toNat (fl.scaled b M b).floor.toNat ∧
      max (fl.scaled a M b).floor.toNat (fl.scaled b M b).floor.toNat ≤ M) ∧
    (300 ≤ M →
      |((min (fl.scaled a M b).floor.toNat (fl.scaled b M b).floor.toNat : Nat) : ℚ) /
          ((max (fl.scaled a M b).floor.toNat (fl.scaled b M b).floor.toNat : Nat) : ℚ) -
        (a : ℚ) / (b : ℚ)| < 1 / 100) := by
  have hbQ : (0 : ℚ) < (b : ℚ) := by exact_mod_cast hb
  have habQ : (a : ℚ) ≤ (b : ℚ) := by exact_mod_cast hab
  have hmdQ : (M : ℚ) ≤ 2 ^ 50 := by exact_mod_cast hmd
  have hM0 : (0 : ℚ) ≤ (M : ℚ) := by positivity
  have hqb : (b : ℚ) * ((M : ℚ) / (b : ℚ)) = (M : ℚ) := by field_simp
  have ht0 : (0 : ℚ) ≤ (a : ℚ) * ((M : ℚ) / (b : ℚ)) := by positivity
  have htM : (a : ℚ) * ((M : ℚ) / (b : ℚ)) ≤ (M : ℚ) := by
    calc (a : ℚ) * ((M : ℚ) / (b : ℚ))
        ≤ (b : ℚ) * ((M : ℚ) / (b : ℚ)) :=
          mul_le_mul_of_nonneg_right habQ (by positivity)
      _ = (M : ℚ) := hqb
  have hslr := fl.scaled_rel b M b
  rw [hqb] at hslr
  have hssr := fl.scaled_rel a M b
  have hhalfM : (M : ℚ) / 2 ^ 51 ≤ 1 / 2 := by
    rw [div_le_iff (by positivity : (0 : ℚ) < 2 ^ 51)]
    have h251 : (1 / 2 : ℚ) * 2 ^ 51 = 2 ^ 50 := by norm_num
    linarith
  have hhalft : ((a : ℚ) * ((M : ℚ) / (b : ℚ))) / 2 ^ 51 ≤ 1 / 2 := by
    have h1 : ((a : ℚ) * ((M : ℚ) / (b : ℚ))) / 2 ^ 51 ≤ (M : ℚ) / 2 ^ 51 := by
      gcongr
    linarith
  obtain ⟨hsl1, hsl2⟩ := abs_le.mp hslr
  obtain ⟨hss1, hss2⟩ := abs_le.mp hssr
  set t : ℚ := (a : ℚ) * ((M : ℚ) / (b : ℚ)) with htdef
  set sl : ℚ := fl.scaled b M b with hsldef
  set ss : ℚ := fl.scaled a M b with hssdef
  have hsllo : (M : ℚ) - 1 / 2 ≤ sl := by linarith
  have hslhi : sl ≤ (M : ℚ) + 1 / 2 := by linarith
  have hsslo : t - 1 / 2 ≤ ss := by linarith
  have hsshi : ss ≤ t + 1 / 2 := by linarith
  have hss0 : (0 : ℚ) ≤ ss := by
    have ht51 : t / 2 ^ 51 ≤ t := div_le_self ht0 (by norm_num)
    linarith
  have hLlo : (M : ℤ) - 1 ≤ sl.floor := by
    rw [ratFloor_eq_intFloor, Int.le_floor]
    push_cast
    linarith
  have hLhi : sl.floor ≤ (M : ℤ) := by
    rw [ratFloor_eq_intFloor]
    have h2 : Int.floor sl < (M : ℤ) + 1 := by
      rw [Int.floor_lt]
      push_cast
      linarith
    omega
  have hS0 : (0 : ℤ) ≤ ss.floor := by
    rw [ratFloor_eq_intFloor, Int.le_floor]
    push_cast
    linarith
  have hShi : ss.floor ≤ (M : ℤ) := by
    rw [ratFloor_eq_intFloor]
    have h2 : Int.floor ss < (M : ℤ) + 1 := by
      rw [Int.floor_lt]
      push_cast
      linarith
    omega
  constructor
  · constructor
    · have h1 : M - 1 ≤ sl.floor.toNat := by omega
      exact le_trans h1 (Nat.le_max_right _ _)
    · have h1 : ss.floor.toNat ≤ M := by omega
      have h2 : sl.floor.toNat ≤ M := by omega
      exact max_le h1 h2
  · intro h300
    have h300Q : (300 : ℚ) ≤ (M : ℚ) := by exact_mod_cast h300
    have hL0 : (0 : ℤ) ≤ sl.floor := by omega
    have hScast : ((ss.floor.toNat : Nat) : ℚ) = ((ss.floor : ℤ) : ℚ) := by
      have h4 := Int.toNat_of_nonneg hS0
      exact_mod_cast congrArg (fun z : ℤ => (z : ℚ)) h4
    have hLcast : ((sl.floor.toNat : Nat) : ℚ) = ((sl.floor : ℤ) : ℚ) := by
      have h4 := Int.toNat_of_nonneg hL0
      exact_mod_cast congrArg (fun z : ℤ => (z : ℚ)) h4
    have hSq1 : ((ss.floor : ℤ) : ℚ) ≤ ss := by
      rw [ratFloor_eq_intFloor]
      exact Int.floor_le ss
    have hSq2 : ss < ((ss.floor : ℤ) : ℚ) + 1 := by
      rw [ratFloor_eq_intFloor]
      exact Int.lt_floor_add_one ss
    have hLq2 : (M : ℚ) - 1 ≤ ((sl.floor : ℤ) : ℚ) := by exact_mod_cast hLlo
    have hLq3 : ((sl.floor : ℤ) : ℚ) ≤ (M : ℚ) := by exact_mod_cast hLhi
    have hSq3 : ((ss.floor : ℤ) : ℚ) ≤ (M : ℚ) := by exact_mod_cast hShi
    rw [Nat.cast_min, Nat.cast_max, hScast, hLcast]
    have hminS : |min ((ss.floor : ℤ) : ℚ) ((sl.floor : ℤ) : ℚ) - t| ≤ 3 / 2 := by
      rw [abs_le]
      constructor
      · have c1 : t - 3 / 2 ≤ ((ss.floor : ℤ) : ℚ) := by linarith
        have c2 : t - 3 / 2 ≤ ((sl.floor : ℤ) : ℚ) := by linarith
        have h3 := le_min c1 c2
        linarith
      · have h3 := min_le_left ((ss.floor : ℤ) : ℚ) ((sl.floor : ℤ) : ℚ)
        linarith
    have hmaxL1 : (M : ℚ) - 1 ≤ max ((ss.floor : ℤ) : ℚ) ((sl.floor : ℤ) : ℚ) := by
      have h3 := le_max_right ((ss.floor : ℤ) : ℚ) ((sl.floor : ℤ) : ℚ)
      linarith
    have hmaxL2 : max ((ss.floor : ℤ) : ℚ) ((sl.floor : ℤ) : ℚ) ≤ (M : ℚ) :=
      max_le hSq3 hLq3
    have hcore := ratio_core t (M : ℚ)
      (min ((ss.floor : ℤ) : ℚ) ((sl.floor : ℤ) : ℚ))
      (max ((ss.floor : ℤ) : ℚ) ((sl.floor : ℤ) : ℚ))
      h300Q ht0 htM hminS hmaxL1 hmaxL2
    have hMne : (M : ℚ) ≠ 0 := by
      intro h0
      rw [h0] at h300Q
      linarith
    have htab : t / (M : ℚ) = (a : ℚ) / (b : ℚ) := by
      rw [htdef]
      field_simp
      ring
    rw [← htab]
    exact hcore

/-- C4 counterexample, with the exact float64 values the interpreter
computes.  For the (decodable) 10240 × 19 image with maxDimension 1024
the resize produces 1024 × 1 and the long-over-short aspect ratio moves
from 10240/19 ≈ 538.9 to 1024, violating the claimed bound
|outW/outH - inW/inH| < 1e-2; moreover for the 1122 × 800 image the
float64 product 1122 * (1024/1122) is 1023.9999999999999, so int()
truncates the longer side to 1023 — the longer side does not always
equal maxDimension exactly. -/
theorem aspect_ratio_bound_fails :
    1024 < max 19 10240 ∧
    resizeDims flPy 19 10240 1024 = (1, 1024) ∧
    ¬ |((resizeDims flPy 19 10240 1024).2 : ℚ) /
          ((resizeDims flPy 19 10240 1024).1 : ℚ)
        - (10240 : ℚ) / (19 : ℚ)| < 1 / 100 ∧
    resizeDims flPy 800 1122 1024 = (730, 1023) := by
  have hscale1 : flPy.scaled 19 1024 10240 = 8556839292003943 / 2 ^ 52 := by
    simp only [flPy]
    norm_num
  have hscale2 : flPy.scaled 10240 1024 10240 = 1024 := by
    simp only [flPy]
    norm_num
  have hscale3 : flPy.scaled 800 1024 1122 = 6422245457925841 / 2 ^ 43 := by
    simp only [flPy]
    norm_num
  have hscale4 : flPy.scaled 1122 1024 1122 = 9007199254740991 / 2 ^ 43 := by
    simp only [flPy]
    norm_num
  have hf1 : (8556839292003943 / 2 ^ 52 : ℚ).floor = 1 := by
    rw [ratFloor_eq_intFloor]
    exact Int.floor_eq_iff.mpr ⟨by norm_num, by norm_num⟩
  have hf2 : ((1024 : ℚ)).floor = 1024 := by
    rw [ratFloor_eq_intFloor]
    exact Int.floor_eq_iff.mpr ⟨by norm_num, by norm_num⟩
  have hf3 : (6422245457925841 / 2 ^ 43 : ℚ).floor = 730 := by
    rw [ratFloor_eq_intFloor]
    exact Int.floor_eq_iff.mpr ⟨by norm_num, by norm_num⟩
  have hf4 : (9007199254740991 / 2 ^ 43 : ℚ).floor = 1023 := by
    rw [ratFloor_eq_intFloor]
    exact Int.floor_eq_iff.mpr ⟨by norm_num, by norm_num⟩
  have hd1 : resizeDims flPy 19 10240 1024 = (1, 1024) := by
    unfold resizeDims
    rw [if_pos (by norm_num)]
    have hmax : max 19 10240 = 10240 := rfl
    rw [hmax, hscale1, hscale2, hf1, hf2]
    decide
  have hd2 : resizeDims flPy 800 1122 1024 = (730, 1023) := by
    unfold resizeDims
    rw [if_pos (by norm_num)]
    have hmax : max 800 1122 = 1122 := rfl
    rw [hmax, hscale3, hscale4, hf3, hf4]
    decide
  refine ⟨by norm_num, hd1, ?_, hd2⟩
  rw [hd1]
  norm_num
  rw [abs_of_nonneg (by norm_num)]
  norm_num

/-- C4 (amended).  An image whose longer side is at or below
maxDimension keeps its dimensions (never upscaled); an image whose
longer side exceeds maxDimension (maxDimension ≤ 2^50) is resized so
that the longer side equals maxDimension or maxDimension - 1 — float64
rounding of the scale can make int() truncate one below, see
aspect_ratio_bound_fails — and, in the short-over-long orientation with
maxDimension ≥ 300, the aspect ratio is preserved within 1e-2.  The
long-over-short formulation |outW/outH - inW/inH| < 1e-2 of the
original claim fails for extreme aspect ratios (also in
aspect_ratio_bound_fails). -/
theorem resize_longer_side_bounds (fl : FloatArith) (h w maxDim : Nat)
    (hh : 0 < h) (hw : 0 < w) (hmd : maxDim ≤ 2 ^ 50) :
    (max h w ≤ maxDim → resizeDims fl h w maxDim = (h, w)) ∧
    (maxDim < max h w →
      (maxDim - 1 ≤
          max (resizeDims fl h w maxDim).1 (resizeDims fl h w maxDim).2 ∧
        max (resizeDims fl h w maxDim).1 (resizeDims fl h w maxDim).2 ≤
          maxDim) ∧
      (300 ≤ maxDim →
        |((min (resizeDims fl h w maxDim).1 (resizeDims fl h w maxDim).2 : Nat) : ℚ)
            / ((max (resizeDims fl h w maxDim).1 (resizeDims fl h w maxDim).2 : Nat) : ℚ)
          - ((min h w : Nat) : ℚ) / ((max h w : Nat) : ℚ)| < 1 / 100)) := by
  constructor
  · intro hle
    rw [resizeDims, if_neg (Nat.not_lt.mpr hle)]
  · intro hlt
    rcases Nat.le_total h w with hle | hle
    · have hmaxeq : max h w = w := Nat.max_eq_right hle
      have hmineq : min h w = h := Nat.min_eq_left hle
      rw [resizeDims, if_pos hlt]
      dsimp only
      rw [hmaxeq, hmineq]
      exact ⟨(resize_branch_aux fl h w maxDim hw hle hmd).1,
        (resize_branch_aux fl h w maxDim hw hle hmd).2⟩
    · have hmaxeq : max h w = h := Nat.max_eq_left hle
      have hmineq : min h w = w := Nat.min_eq_right hle
      rw [resizeDims, if_pos hlt]
      dsimp only
      rw [hmaxeq, hmineq]
      rw [max_comm ((fl.scaled h maxDim h).floor.toNat)
          ((fl.scaled w maxDim h).floor.toNat),
        min_comm ((fl.scaled h maxDim h).floor.toNat)
          ((fl.scaled w maxDim h).floor.toNat)]
      exact ⟨(resize_branch_aux fl w h maxDim hh hle hmd).1,
        (resize_branch_aux fl w h maxDim hh hle hmd).2⟩

/-- Witness for resize_longer_side_bounds at the spec's end-to-end
scenario dimensions 1000 × 2000 with maxDimension 1024, under the
exact-arithmetic float instance. -/
theorem resize_longer_side_bounds_witness :
    (max 1000 2000 ≤ 1024 → resizeDims exactFloat 1000 2000 1024 = (1000, 2000)) ∧
    (1024 < max 1000 2000 →
      (1024 - 1 ≤
          max (resizeDims exactFloat 1000 2000 1024).1
            (resizeDims exactFloat 1000 2000 1024).2 ∧
        max (resizeDims exactFloat 1000 2000 1024).1
            (resizeDims exactFloat 1000 2000 1024).2 ≤ 1024) ∧
      (300 ≤ 1024 →
        |((min (resizeDims exactFloat 1000 2000 1024).1
              (resizeDims exactFloat 1000 2000 1024).2 : Nat) : ℚ)
            / ((max (resizeDims exactFloat 1000 2000 1024).1
              (resizeDims exactFloat 1000 2000 1024).2 : Nat) : ℚ)
          - ((min 1000 2000 : Nat) : ℚ) / ((max 1000 2000 : Nat) : ℚ)| < 1 / 100)) :=
  resize_longer_side_bounds exactFloat 1000 2000 1024 (by decide) (by decide)
    (by decide)

/-- Membership in an axis neighbourhood implies the index is in bounds. -/
lemma mem_nbhd {r i n x : Nat} (hx : x ∈ nbhd r i n) : x < n := by
  unfold nbhd at hx
  rcases List.mem_filterMap.mp hx with ⟨d, _, hd⟩
  split at hd
  · next hc =>
    injection hd with h
    omega
  · simp at hd

/-- Generic membership through a foldr of list appends. -/
lemma mem_foldr_append {α β : Type} (l : List α) (f : α → List β) (v : β) :
    v ∈ l.foldr (fun a acc => f a ++ acc) [] ↔ ∃ a ∈ l, v ∈ f a := by
  induction l with
  | nil => simp
  | cons x xs ih => simp [List.foldr_cons, List.mem_append, ih]

/-- Every neighbourhood value is an in-bounds pixel value. -/
lemma mem_nbhdValues {g : Grid} {r i j v : Nat} (hv : v ∈ nbhdValues g r i j) :
    ∃ a, a < g.h ∧ ∃ b, b < g.w ∧ v = g.pix a b := by
  unfold nbhdValues at hv
  rcases (mem_foldr_append _ _ _).mp hv with ⟨a, ha, hv2⟩
  rcases List.mem_map.mp hv2 with ⟨b, hb, hfb⟩
  exact ⟨a, mem_nbhd ha, b, mem_nbhd hb, hfb.symm⟩

/-- A max-fold with seed 0 over 0/255 values is 0 or 255. -/
lemma foldr_max_binary (l : List Nat) (hl : ∀ v ∈ l, v = 0 ∨ v = 255) :
    l.foldr max 0 = 0 ∨ l.foldr max 0 = 255 := by
  induction l with
  | nil => exact Or.inl rfl
  | cons x xs ih =>
    have hx := hl x (by simp)
    have ihx := ih (fun v hv => hl v (by simp [hv]))
    rcases hx with h | h <;> rcases ihx with h2 | h2 <;>
      simp [List.foldr_cons, h, h2]

/-- A min-fold with seed 255 over 0/255 values is 0 or 255. -/
lemma foldr_min_binary (l : List Nat) (hl : ∀ v ∈ l, v = 0 ∨ v = 255) :
    l.foldr min 255 = 0 ∨ l.foldr min 255 = 255 := by
  induction l with
  | nil => exact Or.inr rfl
  | cons x xs ih =>
    have hx := hl x (by simp)
    have ihx := ih (fun v hv => hl v (by simp [hv]))
    rcases hx with h | h <;> rcases ihx with h2 | h2 <;>
      simp [List.foldr_cons, h, h2]

/-- Dilation preserves 0/255-valuedness. -/
lemma dilate_binary (r : Nat) {g : Grid} (hg : BinaryGrid g) :
    BinaryGrid (dilate r g) := by
  intro i _ j _
  refine foldr_max_binary _ ?_
  intro v hv
  obtain ⟨a, ha, b, hb, he⟩ := mem_nbhdValues hv
  rw [he]
  exact hg a ha b hb

/-- Erosion preserves 0/255-valuedness. -/
lemma erode_binary (r : Nat) {g : Grid} (hg : BinaryGrid g) :
    BinaryGrid (erode r g) := by
  intro i _ j _
  refine foldr_min_binary _ ?_
  intro v hv
  obtain ⟨a, ha, b, hb, he⟩ := mem_nbhdValues hv
  rw [he]
  exact hg a ha b hb

/-- The all-zero mask is 0/255-valued. -/
lemma zerosGrid_binary (h w : Nat) : BinaryGrid (zerosGrid h w) :=
  fun _ _ _ _ => Or.inl rfl

/-- Rasterizing any number of convex-hull regions into a 0/255-valued
accumulator keeps it 0/255-valued. -/
lemma foldl_fill_binary (regions : List (Nat → Nat → Bool)) (m : Grid)
    (hm : BinaryGrid m) : BinaryGrid (regions.foldl fillConvexPoly m) := by
  induction regions generalizing m with
  | nil => exact hm
  | cons r rs ih =>
    refine ih _ ?_
    intro i hi j hj
    dsimp only [fillConvexPoly]
    split
    · exact Or.inr rfl
    · exact hm i hi j hj

/-- C1 counterexample: with the landmark backend present and zero faces
detected (valid, non-error behaviour), the cleaned-up face mask is
all-background, so it contains exactly one distinct intensity value,
not two — refuting "exactly two distinct intensity values ... including
when no landmarks are found". -/
theorem face_mask_not_two_valued :
    env0.det.mediapipe_available = true ∧
    env0.det.faces img44 = [] ∧
    compute_face_mask env0 img44 = Except.ok faceMask0 ∧
    distinctCount faceMask0 ≠ 2 ∧ distinctCount faceMask0 = 1 := by
  refine ⟨rfl, rfl, rfl, ?_, ?_⟩ <;> decide

/-- C1 (amended): after their cleanup steps the edge map, the
segmentation mask and the face/hands region masks are strictly binary in
the sense that every pixel is 0 or 255 — hence at most two distinct
intensity values; "exactly two" fails on detection-free inputs (see
face_mask_not_two_valued). -/
theorem cleanup_outputs_binary (env : Env) (img : Grid) :
    BinaryGrid (compute_edges env img) ∧
    BinaryGrid (compute_segmentation_mask env img) ∧
    (∀ m, compute_face_mask env img = Except.ok m → BinaryGrid m) ∧
    (∀ m, compute_hands_mask env img = Except.ok m → BinaryGrid m) := by
  refine ⟨env.cv.canny_binary _ _ _, ?_, ?_, ?_⟩
  · unfold compute_segmentation_mask
    split
    · exact zerosGrid_binary _ _
    · dsimp only
      refine erode_binary 1 (erode_binary 1 (dilate_binary 1 (dilate_binary 1
        (dilate_binary 1 (erode_binary 1 ?_)))))
      intro i _ j _
      dsimp only
      split
      · exact Or.inr rfl
      · exact Or.inl rfl
  · intro m hm
    unfold compute_face_mask at hm
    split at hm
    · simp at hm
    · injection hm with h
      subst h
      exact dilate_binary 2 (dilate_binary 2
        (foldl_fill_binary _ _ (zerosGrid_binary _ _)))
  · intro m hm
    unfold compute_hands_mask at hm
    split at hm
    · simp at hm
    · injection hm with h
      subst h
      exact dilate_binary 7 (dilate_binary 7
        (foldl_fill_binary _ _ (zerosGrid_binary _ _)))

/-- Witness for cleanup_outputs_binary on the concrete environment and
image, discharging the Except.ok hypothesis for the face mask. -/
theorem cleanup_outputs_binary_witness :
    BinaryGrid (compute_edges env0 img44) ∧ BinaryGrid faceMask0 :=
  ⟨(cleanup_outputs_binary env0 img44).1,
   (cleanup_outputs_binary env0 img44).2.2.1 faceMask0 rfl⟩

/-- C2 counterexample: in env0 the model-availability capability is set
but none of the candidate checkpoint paths exists; the learned model is
still run (with uninitialized weights) and the estimator reports the
learned-model identifier — it does not use the heuristic fallback. -/
theorem no_checkpoint_still_runs_model :
    env0.depth.depth_available = true ∧
    resolveCheckpoint env0.depth = none ∧
    mlWeights (compute_depth_map_ml env0 img44) = some Weights.uninitialized ∧
    (compute_depth_map env0 img44).2 = "depth-anything-v2-vits" ∧
    (compute_depth_map env0 img44).2 ≠ "simple-laplacian" := by
  refine ⟨rfl, rfl, rfl, rfl, ?_⟩
  decide

/-- C2 (amended): the learned-model primary path is taken whenever the
model-availability capability is set, regardless of checkpoint
resolvability — when no checkpoint is resolvable the model runs with
uninitialized weights after a warning; the heuristic fallback is used
exactly when the capability is unset or the primary path raises. -/
theorem depth_primary_path_gating (env : Env) (img : Grid) :
    ((compute_depth_map env img).2 = "simple-laplacian" ↔
      (env.depth.depth_available = false ∨
        mlOk (compute_depth_map_ml env img) = false)) ∧
    (env.depth.depth_available = true → resolveCheckpoint env.depth = none →
      compute_depth_map_ml env img =
        (match env.depth.infer img with
         | some d => Except.ok (normalizeDepth d, Weights.uninitialized)
         | none => Except.error "inference raised")) := by
  constructor
  · cases hav : env.depth.depth_available with
    | false => simp [compute_depth_map, hav, mlOk]
    | true =>
      cases hml : compute_depth_map_ml env img with
      | ok p => simp [compute_depth_map, hav, hml, mlOk]
      | error e => simp [compute_depth_map, hav, hml, mlOk]
  · intro hav hcp
    simp [compute_depth_map_ml, hav, hcp]

/-- Witness for depth_primary_path_gating on the concrete environment
with the capability set and no resolvable checkpoint. -/
theorem depth_primary_path_gating_witness :
    ((compute_depth_map env0 img44).2 = "simple-laplacian" ↔
      (env0.depth.depth_available = false ∨
        mlOk (compute_depth_map_ml env0 img44) = false)) ∧
    compute_depth_map_ml env0 img44 =
      (match env0.depth.infer img44 with
       | some d => Except.ok (normalizeDepth d, Weights.uninitialized)
       | none => Except.error "inference raised") :=
  ⟨(depth_primary_path_gating env0 img44).1,
   (depth_primary_path_gating env0 img44).2 rfl rfl⟩

/-- C3: the depth estimator is total (its model returns a plain pair —
no exception escapes) and the method identifier is exactly one of the
learned-model identifier and the heuristic identifier: the former
exactly when the capability is set and the primary path succeeded, in
which case the returned map comes from the primary path; otherwise the
heuristic Laplacian map is returned with identifier "simple-laplacian",
covering in particular every exception caught in the primary path. -/
theorem depth_estimator_never_raises (env : Env) (img : Grid) :
    ((compute_depth_map env img).2 = "depth-anything-v2-vits" ∨
      (compute_depth_map env img).2 = "simple-laplacian") ∧
    ((compute_depth_map env img).2 = "depth-anything-v2-vits" ↔
      (env.depth.depth_available = true ∧
        mlOk (compute_depth_map_ml env img) = true)) ∧
    (compute_depth_map env img =
        (compute_depth_map_simple env img, "simple-laplacian") ∨
      ∃ d wt, compute_depth_map_ml env img = Except.ok (d, wt) ∧
        compute_depth_map env img = (d, "depth-anything-v2-vits")) := by
  cases hav : env.depth.depth_available with
  | false =>
    refine ⟨Or.inr ?_, ?_, Or.inl ?_⟩ <;> simp [compute_depth_map, hav, mlOk]
  | true =>
    cases hml : compute_depth_map_ml env img with
    | ok p =>
      refine ⟨Or.inl ?_, ?_, Or.inr ⟨p.1, p.2, ?_, ?_⟩⟩ <;>
        simp [compute_depth_map, hav, hml, mlOk]
    | error e =>
      refine ⟨Or.inr ?_, ?_, Or.inl ?_⟩ <;>
        simp [compute_depth_map, hav, hml, mlOk]

/-- C9: edge detection is deterministic — the blur, the median-based
threshold derivation with σ = 0.33 and the Canny operator are modelled as
(and in the script are) pure functions of the input image, so the
detector is a function: two invocations on the same image are
bit-identical, and the computation is exactly the composition of the
blur, the derived thresholds and the Canny call. -/
theorem edge_detection_deterministic (env : Env) (img : Grid) :
    compute_edges env img = compute_edges env img ∧
    compute_edges env img =
      env.cv.canny (env.cv.gaussianBlur3 (env.cv.cvtGray img))
        (autoThresholds env img).1 (autoThresholds env img).2 :=
  ⟨rfl, rfl⟩

/-- C8: the epsilon-guarded normalization of the per-pixel vector
(-dx, -dy, z_scale) yields a vector of magnitude 1 within tolerance
1e-3 (indeed within 2e-8), for every gradient pair: the unnormalized
vector's norm is at least z_scale = 1/2, so dividing by (norm + 1e-8)
shrinks the length by at most a factor 1/(1 + 2e-8). -/
theorem normal_vectors_unit_length (dx dy : ℝ) :
    |Real.sqrt ((normalAt dx dy).1 ^ 2 + (normalAt dx dy).2.1 ^ 2 +
        (normalAt dx dy).2.2 ^ 2) - 1| ≤ 1 / 1000 := by
  have hz : ((z_scale : ℝ)) = 1 / 2 := by norm_num [z_scale]
  show |Real.sqrt
      ((-dx / (Real.sqrt (dx ^ 2 + dy ^ 2 + ((z_scale : ℝ)) ^ 2) + 1 / 100000000)) ^ 2 +
       (-dy / (Real.sqrt (dx ^ 2 + dy ^ 2 + ((z_scale : ℝ)) ^ 2) + 1 / 100000000)) ^ 2 +
       ((z_scale : ℝ) / (Real.sqrt (dx ^ 2 + dy ^ 2 + ((z_scale : ℝ)) ^ 2) + 1 / 100000000)) ^ 2)
      - 1| ≤ 1 / 1000
  rw [hz]
  set s : ℝ := dx ^ 2 + dy ^ 2 + (1 / 2 : ℝ) ^ 2 with hsdef
  set n : ℝ := Real.sqrt s with hndef
  have hs0 : (0 : ℝ) ≤ s := by rw [hsdef]; positivity
  have hn2 : n ^ 2 = s := Real.sq_sqrt hs0
  have hnhalf : (1 / 2 : ℝ) ≤ n := by
    have h14 : ((1 : ℝ) / 2) ^ 2 ≤ s := by
      rw [hsdef]; nlinarith [sq_nonneg dx, sq_nonneg dy]
    have h2 := Real.sqrt_le_sqrt h14
    rwa [Real.sqrt_sq (by norm_num : (0 : ℝ) ≤ 1 / 2)] at h2
  have hne : (0 : ℝ) < n + 1 / 100000000 := by linarith
  have hn2' : n ^ 2 = dx ^ 2 + dy ^ 2 + (1 / 2 : ℝ) ^ 2 := hn2.trans hsdef
  have hnum : (-dx) ^ 2 + (-dy) ^ 2 + (1 / 2 : ℝ) ^ 2 = n ^ 2 := by
    rw [hn2']; ring
  have hsum : (-dx / (n + 1 / 100000000)) ^ 2 + (-dy / (n + 1 / 100000000)) ^ 2 +
      ((1 / 2 : ℝ) / (n + 1 / 100000000)) ^ 2 = (n / (n + 1 / 100000000)) ^ 2 := by
    rw [div_pow, div_pow, div_pow, div_add_div_same, div_add_div_same, hnum,
      div_pow]
  rw [hsum, Real.sqrt_sq (div_nonneg (by linarith) hne.le)]
  have hx1 : n / (n + 1 / 100000000) ≤ 1 := by
    rw [div_le_one hne]; linarith
  rw [abs_of_nonpos (by linarith : n / (n + 1 / 100000000) - 1 ≤ 0), neg_sub]
  have hfr : 1 - n / (n + 1 / 100000000) = (1 / 100000000) / (n + 1 / 100000000) := by
    field_simp
  rw [hfr, div_le_iff hne]
  linarith

/-- Reduction of the face mask when the landmark capability is present. -/
lemma compute_face_mask_ok (env : Env) (img : Grid)
    (h : env.det.mediapipe_available = true) :
    compute_face_mask env img = Except.ok (dilate 2 (dilate 2
      ((env.det.faces img).foldl fillConvexPoly (zerosGrid img.h img.w)))) := by
  unfold compute_face_mask
  rw [h]
  simp

/-- Reduction of the face mask when the landmark capability is absent. -/
lemma compute_face_mask_err (env : Env) (img : Grid)
    (h : env.det.mediapipe_available = false) :
    compute_face_mask env img =
      Except.error "MediaPipe not installed. Run: pip install mediapipe" := by
  unfold compute_face_mask
  rw [h]
  simp

/-- Reduction of the hands mask when the landmark capability is present. -/
lemma compute_hands_mask_ok (env : Env) (img : Grid)
    (h : env.det.mediapipe_available = true) :
    compute_hands_mask env img = Except.ok (dilate 7 (dilate 7
      ((env.det.hands img).foldl fillConvexPoly (zerosGrid img.h img.w)))) := by
  unfold compute_hands_mask
  rw [h]
  simp

/-- Reduction of the hands mask when the landmark capability is absent. -/
lemma compute_hands_mask_err (env : Env) (img : Grid)
    (h : env.det.mediapipe_available = false) :
    compute_hands_mask env img =
      Except.error "MediaPipe not installed. Run: pip install mediapipe" := by
  unfold compute_hands_mask
  rw [h]
  simp

/-- A kind token with kindSucceeds appends exactly one record carrying
that kind. -/
lemma stepKind_some (env : Env) (img : Grid) (cache : Option Grid)
    (k : String) (hk : kindSucceeds env k = true) :
    ∃ r0, (stepKind env img cache k).2 = some r0 ∧ r0.kind = k := by
  unfold stepKind
  split_ifs with h1 h2 h3 h4 h5 h6
  · exact ⟨_, rfl, h1.symm⟩
  · exact ⟨_, rfl, h2.symm⟩
  · exact ⟨_, rfl, h3.symm⟩
  · exact ⟨_, rfl, h4.symm⟩
  · subst h5
    simp only [kindSucceeds] at hk
    simp at hk
    rw [compute_face_mask_ok env img hk]
    exact ⟨_, rfl, rfl⟩
  · subst h6
    simp only [kindSucceeds] at hk
    simp at hk
    rw [compute_hands_mask_ok env img hk]
    exact ⟨_, rfl, rfl⟩
  · exfalso
    simp [kindSucceeds, h1, h2, h3, h4, h5, h6] at hk

/-- A kind token without kindSucceeds appends no record (its generation
either failed inside the isolation boundary or the token is unknown). -/
lemma stepKind_none (env : Env) (img : Grid) (cache : Option Grid)
    (k : String) (hk : kindSucceeds env k = false) :
    (stepKind env img cache k).2 = none := by
  unfold stepKind
  split_ifs with h1 h2 h3 h4 h5 h6
  · subst h1; simp [kindSucceeds] at hk
  · subst h2; simp [kindSucceeds] at hk
  · subst h3; simp [kindSucceeds] at hk
  · subst h4; simp [kindSucceeds] at hk
  · subst h5
    simp only [kindSucceeds] at hk
    simp at hk
    rw [compute_face_mask_err env img hk]
  · subst h6
    simp only [kindSucceeds] at hk
    simp at hk
    rw [compute_hands_mask_err env img hk]
  · rfl

/-- The records of a run list exactly the kinds with kindSucceeds, in
request order. -/
lemma runKinds_map_kind (env : Env) (img : Grid) :
    ∀ (kinds : List String) (cache : Option Grid),
      ((runKinds env img kinds cache).1).map MapRecord.kind =
        kinds.filter (fun k => kindSucceeds env k) := by
  intro kinds
  induction kinds with
  | nil => intro cache; rfl
  | cons k rest ih =>
    intro cache
    by_cases hk : kindSucceeds env k = true
    · obtain ⟨r0, hr, hkind⟩ := stepKind_some env img cache k hk
      simp [runKinds, hr, hkind, ih, hk]
    · have hkf : kindSucceeds env k = false := by
        revert hk; cases kindSucceeds env k <;> simp
      have hr := stepKind_none env img cache k hkf
      simp [runKinds, hr, ih, hkf]

/-- Removing one occurrence of a kind whose step is a recordless no-op
leaves the record list unchanged. -/
lemma runKinds_skip (env : Env) (img : Grid) (kf : String)
    (hstep : ∀ cache, stepKind env img cache kf = (cache, none)) :
    ∀ (pre post : List String) (cache : Option Grid),
      (runKinds env img (pre ++ kf :: post) cache).1 =
        (runKinds env img (pre ++ post) cache).1 := by
  intro pre
  induction pre with
  | nil =>
    intro post cache
    simp [runKinds, hstep cache]
  | cons k ks ih =>
    intro post cache
    simp [runKinds, ih]

/-- With the landmark capability absent, a faceMask step is a recordless
no-op. -/
lemma stepKind_faceMask_off (env : Env) (img : Grid)
    (h : env.det.mediapipe_available = false) (cache : Option Grid) :
    stepKind env img cache "faceMask" = (cache, none) := by
  simp [stepKind, compute_face_mask_err env img h]

/-- With the landmark capability absent, a handsMask step is a recordless
no-op. -/
lemma stepKind_handsMask_off (env : Env) (img : Grid)
    (h : env.det.mediapipe_available = false) (cache : Option Grid) :
    stepKind env img cache "handsMask" = (cache, none) := by
  simp [stepKind, compute_hands_mask_err env img h]

/-- C5: a run requesting only "normals" produces exactly one record, the
normals record, and no depth record; the orchestrator computed a depth
map internally (it is retained in the run's depth cache, produced by the
depth estimator on the working image) without emitting a record for
it. -/
theorem normals_only_no_depth_record (env : Env) (img : Grid) (maxDim : Nat) :
    (mainRun env (some img) ["normals"] maxDim).maps =
      [⟨"normals", "normals.png", (resizeImage env img maxDim).w,
        (resizeImage env img maxDim).h, "sobel-from-depth"⟩] ∧
    (mainRun env (some img) ["normals"] maxDim).depthCache =
      some (compute_depth_map env (resizeImage env img maxDim)).1 :=
  ⟨rfl, rfl⟩

/-- C6: the process exit status is 1 exactly when the input image cannot
be decoded and 0 for every decodable image regardless of per-kind
failures; a capability-unavailable failure of a landmark mask kind is
caught at the per-kind boundary and leaves the records of every other
requested kind unchanged (processing continues). -/
theorem per_kind_isolation_and_exit_status (env : Env) :
    (∀ kinds maxDim, (mainRun env none kinds maxDim).exitCode = 1) ∧
    (∀ img kinds maxDim, (mainRun env (some img) kinds maxDim).exitCode = 0) ∧
    (env.det.mediapipe_available = false →
      ∀ img maxDim (pre post : List String),
        (mainRun env (some img) (pre ++ "faceMask" :: post) maxDim).maps =
          (mainRun env (some img) (pre ++ post) maxDim).maps ∧
        (mainRun env (some img) (pre ++ "handsMask" :: post) maxDim).maps =
          (mainRun env (some img) (pre ++ post) maxDim).maps) := by
  refine ⟨fun _ _ => rfl, fun _ _ _ => rfl, ?_⟩
  intro hmp img maxDim pre post
  constructor
  · exact runKinds_skip env (resizeImage env img maxDim) "faceMask"
      (stepKind_faceMask_off env (resizeImage env img maxDim) hmp) pre post none
  · exact runKinds_skip env (resizeImage env img maxDim) "handsMask"
      (stepKind_handsMask_off env (resizeImage env img maxDim) hmp) pre post none

/-- Witness for per_kind_isolation_and_exit_status in the environment
without the landmark capability: decode failure exits 1, a decodable run
exits 0 even though faceMask fails, and the failed faceMask leaves the
records of depth and edges unchanged. -/
theorem per_kind_isolation_witness :
    (mainRun envNoMp none ["depth"] 1024).exitCode = 1 ∧
    (mainRun envNoMp (some img44) ["depth", "faceMask", "edges"] 1024).exitCode = 0 ∧
    (mainRun envNoMp (some img44) (["depth"] ++ "faceMask" :: ["edges"]) 1024).maps =
      (mainRun envNoMp (some img44) (["depth"] ++ ["edges"]) 1024).maps :=
  ⟨(per_kind_isolation_and_exit_status envNoMp).1 ["depth"] 1024,
   (per_kind_isolation_and_exit_status envNoMp).2.1 img44
     ["depth", "faceMask", "edges"] 1024,
   ((per_kind_isolation_and_exit_status envNoMp).2.2 rfl img44 1024
     ["depth"] ["edges"]).1⟩

/-- C7: the result set carries exactly one record per requested kind
that completed without error, in request order — the record kinds are
the requested kinds filtered by kindSucceeds, which drops unknown tokens
silently and landmark kinds without the capability, without disturbing
later kinds. -/
theorem records_match_request_order (env : Env) (img : Grid)
    (kinds : List String) (maxDim : Nat) :
    ((mainRun env (some img) kinds maxDim).maps).map MapRecord.kind =
      kinds.filter (fun k => kindSucceeds env k) :=
  runKinds_map_kind env (resizeImage env img maxDim) kinds none

/-- C10: duplicate kind tokens are not deduplicated — every occurrence
of a kind with kindSucceeds contributes its own record, so a kind
requested n times yields n records of that kind. -/
theorem duplicate_kinds_not_deduplicated (env : Env) (img : Grid)
    (kinds : List String) (maxDim : Nat) (k : String)
    (hk : kindSucceeds env k = true) :
    countStr k (((mainRun env (some img) kinds maxDim).maps).map MapRecord.kind) =
      countStr k kinds := by
  have h := runKinds_map_kind env (resizeImage env img maxDim) kinds none
  show countStr k
      (((runKinds env (resizeImage env img maxDim) kinds none).1).map MapRecord.kind)
    = countStr k kinds
  rw [h]
  unfold countStr
  rw [List.filter_filter]
  refine congrArg List.length (List.filter_congr ?_)
  intro a _
  by_cases ha : a = k
  · subst ha; simp [hk]
  · simp [ha]

/-- Witness for duplicate_kinds_not_deduplicated: requesting
"edges,edges" yields two edges records. -/
theorem duplicate_kinds_witness :
    countStr "edges"
        (((mainRun env0 (some img44) ["edges", "edges"] 1024).maps).map
          MapRecord.kind) =
      countStr "edges" ["edges", "edges"] :=
  duplicate_kinds_not_deduplicated env0 img44 ["edges", "edges"] 1024 "edges" rfl
